import Mathlib

set_option maxRecDepth 4000

/-!
Shallow embedding of the payment-gateway-async repository.

Sources embedded here:
  * `src/backend/src/routes/payments.js` — the idempotency middleware and the
    POST `/payments/:id/refund` route handler;
  * `src/unnamed/part_002` (the job module exporting `createPaymentQueue`,
    `startWebhookRetryProcessor`, `processPayment`) — the payment processor
    and the webhook-event worker `processWebhookEvent`;
  * `src/unnamed/part_001` (the webhook service) — `generateSignature` and
    `verifyWebhookSignature`, with Node's `crypto.createHmac('sha256', …)`
    embedded as a full HMAC-SHA-256 implementation and
    `crypto.timingSafeEqual` as equality over equal-length byte lists,
    erroring on unequal lengths;
  * `src/backend/src/migrations/001_initial_schema.sql` — the row shapes.

Modelling conventions: database rows are Lean structures holding the columns
the embedded queries read or write (columns no embedded query touches, such
as `currency`, `customer_email` or `metadata`, are omitted); monetary
amounts are exact integers (`Int`), mirroring the comparisons and sums the
code performs on them; timestamps are natural numbers; strings that the code
treats as bytes (payloads, secrets, signatures) are `List Nat` byte lists;
JavaScript truthiness of a numeric request field is `Option Int` with `0`
falsy; the nondeterministic inputs of the workers (the simulated success
draw, the HTTP delivery outcome, the existence of the webhook row) are
explicit boolean parameters.
-/

namespace PaymentGateway

/-- Payment `status` column values (schema default `'pending'`). -/
inductive PaymentStatus
  | pending
  | completed
  | failed
  | refunded
  | partial_refunded
deriving DecidableEq, BEq, Repr

/-- Refund `status` column values. -/
inductive RefundStatus
  | pending
  | processed
  | failed
deriving DecidableEq, BEq, Repr

/-- Webhook-event `status` column values. -/
inductive EventStatus
  | pending
  | completed
  | failed
deriving DecidableEq, BEq, Repr

/-- A row of `payments`, restricted to the columns the embedded code reads:
`SELECT id, amount, status FROM payments WHERE id = $1`. -/
structure Payment where
  id : Nat
  amount : Int
  status : PaymentStatus
deriving DecidableEq, BEq, Repr

/-- A row of `refunds` as inserted by the refund route:
`INSERT INTO refunds (id, payment_id, amount, reason, status)`. -/
structure Refund where
  id : Nat
  payment_id : Nat
  amount : Int
  reason : Option String
  status : RefundStatus
deriving DecidableEq, BEq, Repr

/-- A row of `webhooks`, restricted to the columns the embedded code uses
(`active` for the outbox insert, `events` for the subscription filter the
spec describes, `id` for the event binding). -/
structure Webhook where
  id : Nat
  events : List String
  active : Bool
deriving DecidableEq, BEq, Repr

/-- A row of `webhook_events` (schema defaults `retry_count = 0`,
`max_retries = 5`, `next_retry` NULL, `last_error` NULL). -/
structure WebhookEvent where
  id : Nat
  webhook_id : Nat
  event_type : String
  status : EventStatus
  retry_count : Nat := 0
  max_retries : Nat := 5
  next_retry : Option Nat := none
  last_error : Option String := none
deriving DecidableEq, BEq, Repr

/-- A row of `idempotency_keys` (`key` primary, `response` JSONB,
`expires_at` NOT NULL, set to creation time + 24 hours on insert). -/
structure IdempotencyRecord where
  key : String
  response : String
  expires_at : Nat
deriving DecidableEq, BEq, Repr

/-- The durable store: one list per table the embedded operations touch. -/
structure GatewayState where
  payments : List Payment
  refunds : List Refund
  webhooks : List Webhook
  webhook_events : List WebhookEvent
  idempotency_keys : List IdempotencyRecord
deriving Repr

/-- Sum of `amount` over the refunds of `paymentId` whose status is not
`failed` (the "non-failed refund amounts" of the spec's budget). -/
def nonFailedRefundSum (st : GatewayState) (paymentId : Nat) : Int :=
  (st.refunds.filter
    (fun r => r.payment_id == paymentId && !(r.status == RefundStatus.failed))).foldl
    (fun acc r => acc + r.amount) 0

/-- Outcome of the POST `/payments/:id/refund` handler, as far as the
transaction is concerned: 404 when the payment row is absent, 400 when the
requested amount exceeds the payment amount, otherwise the inserted refund
row.  (After COMMIT the handler additionally calls `sendWebhookEvent` with
an undefined `webhook` argument, which throws and turns the HTTP status of
the success path into 500; that post-commit step changes no store state and
is outside this embedding.) -/
inductive RefundResult
  | notFound
  | amountExceeds
  | created (r : Refund)
deriving DecidableEq, BEq, Repr

/-- Embedding of the POST `/payments/:id/refund` handler of
`src/backend/src/routes/payments.js` (lines 154–215): load the payment by
id (404 when absent), compute `refundAmount = amount || payment.amount`
(JavaScript `||`: a missing or zero `amount` falls back to the full payment
amount), reject with 400 when `refundAmount > payment.amount`, and
otherwise insert one refund row with status `'pending'`.  The handler never
reads the payment's `status` column, never reads existing refund rows, and
never updates the payment row.  The handler body is `postRefund`; the
requested amount `amount || payment.amount` is `refundAmountOf`. -/
def refundAmountOf (payment : Payment) (amount : Option Int) : Int :=
  match amount with
  | some a => if a == 0 then payment.amount else a
  | none => payment.amount

/-- Embedding of the POST `/payments/:id/refund` handler proper (see the
doc comment on `refundAmountOf` for the source reference). -/
def postRefund (st : GatewayState) (paymentId : Nat) (amount : Option Int)
    (reason : Option String) (newId : Nat) : RefundResult × GatewayState :=
  match st.payments.find? (fun p => p.id == paymentId) with
  | none => (RefundResult.notFound, st)
  | some payment =>
    if payment.amount < refundAmountOf payment amount then
      (RefundResult.amountExceeds, st)
    else
      (RefundResult.created
        { id := newId, payment_id := paymentId,
          amount := refundAmountOf payment amount,
          reason := reason, status := RefundStatus.pending },
       { st with refunds := st.refunds ++
          [{ id := newId, payment_id := paymentId,
             amount := refundAmountOf payment amount,
             reason := reason, status := RefundStatus.pending }] })

/-- Embedding of the idempotency middleware of
`src/backend/src/routes/payments.js` (lines 10–31): the stored response is
replayed (HTTP 200) exactly when a row with the given key exists; the
query `SELECT response FROM idempotency_keys WHERE key = $1` does not
reference the `expires_at` column, so `now` is unused. -/
def idempotencyLookup (records : List IdempotencyRecord) (key : String)
    (now : Nat) : Option String :=
  let _ := now
  (records.find? (fun r => r.key == key)).map (fun r => r.response)

/-- Embedding of `processPayment` of `src/unnamed/part_002` (lines 35–90):
`isSuccess` is the simulated draw `Math.random() < 0.9`.  In one
transaction the payment row is updated to `'completed'` or `'failed'` by an
UPDATE whose WHERE clause names only the id (no current-status guard), and
one pending `webhook_events` row is inserted per row of
`SELECT id FROM webhooks WHERE active = true` (the `events` column is not
consulted).  Inserted rows receive fresh ids.  On the failure branch the
worker throws after COMMIT, so the job may be redelivered; redelivery
reruns this same function. -/
def processPayment (st : GatewayState) (paymentId : Nat) (isSuccess : Bool) :
    GatewayState :=
  let newStatus := if isSuccess then PaymentStatus.completed else PaymentStatus.failed
  let eventType := if isSuccess then "payment.completed" else "payment.failed"
  let newEvents :=
    ((st.webhooks.filter (fun w => w.active)).enum).map
      (fun iw =>
        { id := st.webhook_events.length + iw.1,
          webhook_id := iw.2.id,
          event_type := eventType,
          status := EventStatus.pending : WebhookEvent })
  { st with
    payments :=
      st.payments.map
        (fun p => if p.id == paymentId then { p with status := newStatus } else p),
    webhook_events := st.webhook_events ++ newEvents }

/-- The rows `processPayment` inserted: the suffix of `webhook_events`
beyond the rows already present before the call. -/
def insertedEvents (st : GatewayState) (paymentId : Nat) (isSuccess : Bool) :
    List WebhookEvent :=
  (processPayment st paymentId isSuccess).webhook_events.drop st.webhook_events.length

/-- Embedding of the poller's due-row predicate of `src/unnamed/part_002`
(lines 108–113): `status = 'pending' AND (next_retry IS NULL OR next_retry
<= NOW())`. -/
def isDue (now : Nat) (e : WebhookEvent) : Bool :=
  e.status == EventStatus.pending &&
    (match e.next_retry with
     | none => true
     | some t => decide (t ≤ now))

/-- Embedding of `processWebhookEvent` of `src/unnamed/part_002` (lines
127–175), as the transformation of the targeted `webhook_events` row.
`webhookFound` is whether `SELECT url, secret FROM webhooks WHERE id = $1`
returned a row (the query does not check `active`); `deliveryOk` is whether
the HTTP POST of `sendWebhookEvent` succeeded; `errMsg` is the thrown
error's message.  A missing webhook marks the row `'failed'` outright; a
successful delivery marks it `'completed'`; a failed delivery bumps
`retry_count` and either marks the row `'failed'` (when the new count
reaches `max_retries`) or schedules `next_retry = now + 2^n * 60` seconds
for attempt `n = retry_count + 1`. -/
def processWebhookEvent (webhookFound : Bool) (deliveryOk : Bool)
    (errMsg : String) (now : Nat) (e : WebhookEvent) : WebhookEvent :=
  if !webhookFound then
    { e with status := EventStatus.failed }
  else if deliveryOk then
    { e with status := EventStatus.completed }
  else
    let newRetryCount := e.retry_count + 1
    if e.max_retries ≤ newRetryCount then
      { e with status := EventStatus.failed,
               last_error := some errMsg,
               retry_count := newRetryCount }
    else
      { e with retry_count := newRetryCount,
               next_retry := some (now + 2 ^ newRetryCount * 60),
               last_error := some errMsg }

/-! Embedding of the webhook signature service (`src/unnamed/part_001`).
Node's `crypto.createHmac('sha256', secret)` is embedded as HMAC-SHA-256
over byte lists, implemented from FIPS 180-4 / RFC 2104; `hmac.digest('hex')`
is lowercase hex encoding; `Buffer.from` of an ASCII/UTF-8 string is its
byte list, so payloads, secrets and signatures are `List Nat` throughout. -/

/-- Word size of SHA-256 arithmetic: 2^32. -/
def w32 : Nat := 4294967296

/-- Rotate a 32-bit word right by `n` (0 < n < 32, x < 2^32). -/
def rotr (n x : Nat) : Nat :=
  ((x >>> n) ||| (x <<< (32 - n))) % w32

/-- The 64 SHA-256 round constants (FIPS 180-4 §4.2.2), in decimal. -/
def shaK : List Nat :=
  [1116352408, 1899447441, 3049323471, 3921009573, 961987163, 1508970993,
   2453635748, 2870763221, 3624381080, 310598401, 607225278, 1426881987,
   1925078388, 2162078206, 2614888103, 3248222580, 3835390401, 4022224774,
   264347078, 604807628, 770255983, 1249150122, 1555081692, 1996064986,
   2554220882, 2821834349, 2952996808, 3210313671, 3336571891, 3584528711,
   113926993, 338241895, 666307205, 773529912, 1294757372, 1396182291,
   1695183700, 1986661051, 2177026350, 2456956037, 2730485921, 2820302411,
   3259730800, 3345764771, 3516065817, 3600352804, 4094571909, 275423344,
   430227734, 506948616, 659060556, 883997877, 958139571, 1322822218,
   1537002063, 1747873779, 1955562222, 2024104815, 2227730452, 2361852424,
   2428436474, 2756734187, 3204031479, 3329325298]

/-- The eight working variables of a SHA-256 compression, and the hash
state between blocks. -/
structure Hash8 where
  h0 : Nat
  h1 : Nat
  h2 : Nat
  h3 : Nat
  h4 : Nat
  h5 : Nat
  h6 : Nat
  h7 : Nat
deriving DecidableEq, Repr

/-- The SHA-256 initial hash value (FIPS 180-4 §5.3.3), in decimal. -/
def shaInit : Hash8 :=
  ⟨1779033703, 3144134277, 1013904242, 2773480762,
   1359893119, 2600822924, 528734635, 1541459225⟩

/-- One SHA-256 round on the working variables. -/
def shaRound (t : Hash8) (ki wi : Nat) : Hash8 :=
  let s1 := (rotr 6 t.h4) ^^^ (rotr 11 t.h4) ^^^ (rotr 25 t.h4)
  let ch := (t.h4 &&& t.h5) ^^^ ((t.h4 ^^^ 0xffffffff) &&& t.h6)
  let temp1 := (t.h7 + s1 + ch + ki + wi) % w32
  let s0 := (rotr 2 t.h0) ^^^ (rotr 13 t.h0) ^^^ (rotr 22 t.h0)
  let maj := (t.h0 &&& t.h1) ^^^ (t.h0 &&& t.h2) ^^^ (t.h1 &&& t.h2)
  let temp2 := (s0 + maj) % w32
  ⟨(temp1 + temp2) % w32, t.h0, t.h1, t.h2,
   (t.h3 + temp1) % w32, t.h4, t.h5, t.h6⟩

/-- Big-endian 32-bit words from a byte list (groups of four). -/
def bytesToWords : List Nat → List Nat
  | a :: b :: c :: d :: rest =>
    (((a * 256 + b) * 256 + c) * 256 + d) :: bytesToWords rest
  | _ => []

/-- Message schedule: extend the 16 block words to 64. -/
def shaSchedule (block : List Nat) : List Nat :=
  ((List.range 48).foldl
    (fun w i =>
      let x1 := w.getD (i + 1) 0
      let s0 := (rotr 7 x1) ^^^ (rotr 18 x1) ^^^ (x1 >>> 3)
      let x14 := w.getD (i + 14) 0
      let s1 := (rotr 17 x14) ^^^ (rotr 19 x14) ^^^ (x14 >>> 10)
      w.push ((w.getD i 0 + s0 + w.getD (i + 9) 0 + s1) % w32))
    block.toArray).toList

/-- SHA-256 compression of one 16-word block into the hash state. -/
def shaCompress (hs : Hash8) (block : List Nat) : Hash8 :=
  let ws := shaSchedule block
  let t := (List.range 64).foldl
    (fun t i => shaRound t (shaK.getD i 0) (ws.getD i 0)) hs
  ⟨(hs.h0 + t.h0) % w32, (hs.h1 + t.h1) % w32, (hs.h2 + t.h2) % w32,
   (hs.h3 + t.h3) % w32, (hs.h4 + t.h4) % w32, (hs.h5 + t.h5) % w32,
   (hs.h6 + t.h6) % w32, (hs.h7 + t.h7) % w32⟩

/-- Big-endian bytes of a Nat over `k` bytes. -/
def beBytes (k n : Nat) : List Nat :=
  (List.range k).map (fun i => (n >>> (8 * (k - 1 - i))) % 256)

/-- SHA-256 padding: append `0x80`, zeros to 56 mod 64, then the bit
length over eight big-endian bytes. -/
def padMessage (msg : List Nat) : List Nat :=
  msg ++ [128] ++ List.replicate ((119 - msg.length % 64) % 64) 0
      ++ beBytes 8 (8 * msg.length)

/-- SHA-256 of a byte list, as its 32-byte digest. -/
def sha256 (msg : List Nat) : List Nat :=
  let padded := padMessage msg
  let final := (List.range (padded.length / 64)).foldl
    (fun hs i => shaCompress hs (bytesToWords ((padded.drop (64 * i)).take 64)))
    shaInit
  beBytes 4 final.h0 ++ beBytes 4 final.h1 ++ beBytes 4 final.h2 ++
  beBytes 4 final.h3 ++ beBytes 4 final.h4 ++ beBytes 4 final.h5 ++
  beBytes 4 final.h6 ++ beBytes 4 final.h7

/-- HMAC-SHA-256 (RFC 2104) over byte lists, block size 64. -/
def hmacSha256 (key msg : List Nat) : List Nat :=
  let k0 := if 64 < key.length then sha256 key else key
  let kpad := k0 ++ List.replicate (64 - k0.length) 0
  sha256 ((kpad.map (fun b => b ^^^ 92)) ++
    sha256 ((kpad.map (fun b => b ^^^ 54)) ++ msg))

/-- The ASCII code of the lowercase hex digit of `n < 16`. -/
def hexDigit (n : Nat) : Nat := if n < 10 then 48 + n else 87 + n

/-- Lowercase hex encoding of a byte list, as the ASCII byte list of the
hex string (what `digest('hex')` returns, viewed as bytes). -/
def toHexBytes (l : List Nat) : List Nat :=
  l.foldr (fun b acc => hexDigit (b / 16) :: hexDigit (b % 16) :: acc) []

/-- The ASCII byte list of the decimal representation of `n` (the bytes of
`timestamp.toString()` for a numeric timestamp). -/
def natToDecBytes (n : Nat) : List Nat :=
  (Nat.toDigits 10 n).map Char.toNat

/-- The signed message of `generateSignature`:
the bytes of `timestamp + "." + payloadString` (46 is `'.'`).  `payload`
stands for the bytes of the canonical JSON string (the source's
`typeof payload === 'string' ? payload : JSON.stringify(payload)`). -/
def signatureMessage (payload : List Nat) (timestamp : Nat) : List Nat :=
  natToDecBytes timestamp ++ [46] ++ payload

/-- Embedding of `generateSignature` of `src/unnamed/part_001` (lines
32–38): HMAC-SHA-256 of `timestamp + "." + payloadString` under `secret`,
hex encoded (lowercase, as Node's `digest('hex')`). -/
def generateSignature (payload secret : List Nat) (timestamp : Nat) : List Nat :=
  toHexBytes (hmacSha256 secret (signatureMessage payload timestamp))

/-- Embedding of `crypto.timingSafeEqual`: boolean equality of two byte
buffers; throws (`Except.error`) when the byte lengths differ. -/
def timingSafeEqual (a b : List Nat) : Except String Bool :=
  if a.length = b.length then Except.ok (a == b)
  else Except.error "Input buffers must have the same byte length"

/-- Embedding of `verifyWebhookSignature` of `src/unnamed/part_001` (lines
41–54): reject (return false) when `|now − timestamp|` exceeds the
tolerance (default 300000 ms); otherwise compare the candidate signature
against the expected one with `timingSafeEqual`, which throws when the
candidate's byte length differs from the 64-byte hex digest. -/
def verifyWebhookSignature (payload signature secret : List Nat)
    (timestamp now : Nat) (tolerance : Nat := 300000) : Except String Bool :=
  if tolerance < ((now : Int) - (timestamp : Int)).natAbs then
    Except.ok false
  else
    timingSafeEqual signature (generateSignature payload secret timestamp)

/-- Decidable equality of the verifier's result type, for evaluating
`verifyWebhookSignature` on concrete inputs. -/
instance : DecidableEq (Except String Bool) := fun x y =>
  match x, y with
  | Except.ok a, Except.ok b =>
    if h : a = b then Decidable.isTrue (congrArg Except.ok h)
    else Decidable.isFalse (fun hh => h (Except.ok.inj hh))
  | Except.error a, Except.error b =>
    if h : a = b then Decidable.isTrue (congrArg Except.error h)
    else Decidable.isFalse (fun hh => h (Except.error.inj hh))
  | Except.ok _, Except.error _ => Decidable.isFalse (fun hh => Except.noConfusion hh)
  | Except.error _, Except.ok _ => Decidable.isFalse (fun hh => Except.noConfusion hh)

/-! Concrete stores used by the counterexample and witness theorems. -/

/-- One completed payment of amount 100, no refunds, no webhooks. -/
def refundExampleState : GatewayState :=
  ⟨[⟨1, 100, PaymentStatus.completed⟩], [], [], [], []⟩

/-- The store after the first refund of 60 on the 100 payment. -/
def refundExampleAfter60 : GatewayState :=
  (postRefund refundExampleState 1 (some 60) none 11).2

/-- One completed payment of amount 100 carrying one full (pending) refund
of 100: a fully refunded payment in the sense of the repository's API
documentation. -/
def fullyRefundedState : GatewayState :=
  ⟨[⟨2, 100, PaymentStatus.completed⟩],
   [⟨21, 2, 100, none, RefundStatus.pending⟩], [], [], []⟩

/-- One payment already in the terminal status `failed` (as left by a
processor run whose simulated draw failed), no other rows. -/
def failedPaymentState : GatewayState :=
  ⟨[⟨4, 50, PaymentStatus.failed⟩], [], [], [], []⟩

/-- One pending payment plus one active webhook subscribed only to
`refund.created`. -/
def refundOnlyWebhookState : GatewayState :=
  ⟨[⟨5, 10, PaymentStatus.pending⟩], [], [⟨7, ["refund.created"], true⟩], [], []⟩

/-- One idempotency record whose `expires_at` (1000) is long past. -/
def expiredRecordStore : List IdempotencyRecord :=
  [⟨"k1", "stored-response", 1000⟩]

/-- A fresh pending webhook-event row (schema defaults). -/
def freshEvent : WebhookEvent :=
  ⟨70, 7, "payment.completed", EventStatus.pending, 0, 5, none, none⟩

/-! Theorems. -/

/-- C1: the claim states that the sum of non-failed refund amounts never
exceeds the payment's amount and that POST refund accepts only when
`0 < amount ≤ payment.amount − Σ existing non-failed refunds`.  The code
refutes it: on a completed payment of 100, a refund of 60 followed by a
refund of 50 is accepted (the remaining budget was 40), and the non-failed
refund sum reaches 110 > 100. -/
theorem C1_counterexample :
    (100 : Int) - nonFailedRefundSum refundExampleAfter60 1 < 50 ∧
    (postRefund refundExampleAfter60 1 (some 50) none 12).1
      = RefundResult.created ⟨12, 1, 50, none, RefundStatus.pending⟩ ∧
    nonFailedRefundSum (postRefund refundExampleAfter60 1 (some 50) none 12).2 1 = 110 ∧
    ((postRefund refundExampleAfter60 1 (some 50) none 12).2.payments.find?
        (fun p => p.id == 1)).map Payment.amount = some 100 := by
  decide

/-- C1 (amended): when the payment exists, the refund route accepts
exactly when `refundAmountOf payment amount ≤ payment.amount` (the
request amount, falling back to the full payment amount when absent or
zero); on acceptance it appends one pending refund row with that amount
and leaves the payments table unchanged; otherwise it rejects with 400 and
changes nothing.  Existing refunds and the payment's status play no role,
so neither positivity nor the remaining-budget bound of the claim is
enforced. -/
theorem C1_amended_refund_acceptance (st : GatewayState) (pid : Nat)
    (amount : Option Int) (reason : Option String) (newId : Nat) (p : Payment)
    (hfind : st.payments.find? (fun q => q.id == pid) = some p) :
    ((postRefund st pid amount reason newId).1
        = RefundResult.created
            ⟨newId, pid, refundAmountOf p amount, reason, RefundStatus.pending⟩
      ↔ refundAmountOf p amount ≤ p.amount) ∧
    (p.amount < refundAmountOf p amount →
      postRefund st pid amount reason newId = (RefundResult.amountExceeds, st)) ∧
    (refundAmountOf p amount ≤ p.amount →
      (postRefund st pid amount reason newId).2.refunds
        = st.refunds ++
            [⟨newId, pid, refundAmountOf p amount, reason, RefundStatus.pending⟩] ∧
      (postRefund st pid amount reason newId).2.payments = st.payments) := by
  rcases lt_or_ge p.amount (refundAmountOf p amount) with h | h
  · refine ⟨?_, fun _ => ?_, fun hle => absurd h (not_lt.mpr hle)⟩
    · simp only [postRefund, hfind, if_pos h]
      exact ⟨fun hc => RefundResult.noConfusion hc, fun hle => absurd h (not_lt.mpr hle)⟩
    · simp only [postRefund, hfind, if_pos h]
  · have hn : ¬ p.amount < refundAmountOf p amount := not_lt.mpr h
    refine ⟨?_, fun hlt => absurd hlt hn, fun _ => ?_⟩
    · simp only [postRefund, hfind, if_neg hn]
      exact ⟨fun _ => h, fun _ => trivial⟩
    · simp only [postRefund, hfind, if_neg hn]
      exact ⟨trivial, trivial⟩

/-- C1 (witness): the amended acceptance characterization evaluated on the
concrete one-payment store, request amount 40. -/
theorem C1_amended_refund_acceptance_witness :
    (postRefund refundExampleState 1 (some 40) none 11).1
      = RefundResult.created ⟨11, 1, 40, none, RefundStatus.pending⟩ :=
  (C1_amended_refund_acceptance refundExampleState 1 (some 40) none 11
      ⟨1, 100, PaymentStatus.completed⟩ (by decide)).1.mpr (by decide)

/-- C2: the claim requires a 400 `InvalidState` rejection (and no refund
row) when the payment's status is outside `{completed, partial_refunded}`;
the repository's API documentation likewise says a fully refunded payment
cannot be refunded again.  The code checks neither: on a payment of 100
already carrying a full non-failed refund of 100 (and still, necessarily,
in status `completed`, since no code path ever sets `refunded`), a second
full refund of 100 is accepted and inserted. -/
theorem C2_code_bug_no_status_check :
    (postRefund fullyRefundedState 2 (some 100) none 22).1
      = RefundResult.created ⟨22, 2, 100, none, RefundStatus.pending⟩ ∧
    (postRefund fullyRefundedState 2 (some 100) none 22).2.refunds
      = [⟨21, 2, 100, none, RefundStatus.pending⟩,
         ⟨22, 2, 100, none, RefundStatus.pending⟩] ∧
    nonFailedRefundSum fullyRefundedState 2 = 100 := by
  decide

/-- C3: the claim states that a successful refund creation updates the
parent payment to `refunded` (when the new non-failed sum equals the
amount) or `partial_refunded` in the same transaction.  The code performs
no such update: a full refund of a completed payment of 100 is created,
the new non-failed sum equals 100, yet the payment row keeps status
`completed`. -/
theorem C3_code_bug_payment_status_never_updated :
    (postRefund refundExampleState 1 (some 100) none 13).1
      = RefundResult.created ⟨13, 1, 100, none, RefundStatus.pending⟩ ∧
    nonFailedRefundSum (postRefund refundExampleState 1 (some 100) none 13).2 1 = 100 ∧
    (postRefund refundExampleState 1 (some 100) none 13).2.payments
      = [⟨1, 100, PaymentStatus.completed⟩] := by
  decide

/-- C4: the claim states that the payment processor changes a payment's
status only when it is currently `pending`, so statuses follow the DAG and
a redelivered job is a no-op.  The code's UPDATE has no status guard: a
payment already in the terminal status `failed` is overwritten to
`completed` by a redelivered job whose simulated draw succeeds — a
transition the DAG forbids, from a non-pending state. -/
theorem C4_counterexample :
    failedPaymentState.payments = [⟨4, 50, PaymentStatus.failed⟩] ∧
    (processPayment failedPaymentState 4 true).payments
      = [⟨4, 50, PaymentStatus.completed⟩] := by
  decide

/-- C4 (amended): `processPayment` sets the targeted payment's status to
`completed` (success draw) or `failed` (failure draw) unconditionally,
whatever the current status, and leaves other payments unchanged; the
only-when-pending guard of the claim does not exist, so only runs that
happen to start from `pending` follow the DAG. -/
theorem C4_amended_processor_unconditional (st : GatewayState) (pid : Nat)
    (isSuccess : Bool) (p : Payment) (hp : p ∈ st.payments) :
    (p.id = pid →
      ({ p with status := if isSuccess then PaymentStatus.completed
                          else PaymentStatus.failed } : Payment)
        ∈ (processPayment st pid isSuccess).payments) ∧
    (p.id ≠ pid → p ∈ (processPayment st pid isSuccess).payments) := by
  constructor
  · intro hid
    simp only [processPayment]
    refine List.mem_map.mpr ⟨p, hp, ?_⟩
    simp [hid]
  · intro hid
    simp only [processPayment]
    refine List.mem_map.mpr ⟨p, hp, ?_⟩
    simp [hid]

/-- C4 (witness): the unconditional update evaluated on the concrete store
holding the failed payment 4: a success redelivery puts it at
`completed`. -/
theorem C4_amended_processor_unconditional_witness :
    (⟨4, 50, PaymentStatus.completed⟩ : Payment)
      ∈ (processPayment failedPaymentState 4 true).payments :=
  (C4_amended_processor_unconditional failedPaymentState 4 true
      ⟨4, 50, PaymentStatus.failed⟩ (List.Mem.head _)).1 rfl

/-- C5: the claim states that the rows inserted on a payment transition go
exactly to the active subscriptions whose `events` set contains the
emitted type.  The INSERT's SELECT filters on `active = true` only: a
subscription listening solely to `refund.created` still receives a
`payment.completed` outbox row. -/
theorem C5_counterexample :
    insertedEvents refundOnlyWebhookState 5 true
      = [⟨0, 7, "payment.completed", EventStatus.pending, 0, 5, none, none⟩] ∧
    ¬ ("payment.completed" ∈ (["refund.created"] : List String)) := by
  decide

/-- C5 (amended): the rows inserted by a processor run are exactly one
pending row per active subscription — bound to those subscriptions in
order and carrying the emitted event type — with the subscription's
`events` set playing no role, and none for inactive subscriptions. -/
theorem C5_amended_outbox_per_active_subscription (st : GatewayState)
    (pid : Nat) (isSuccess : Bool) :
    (insertedEvents st pid isSuccess).map WebhookEvent.webhook_id
      = (st.webhooks.filter (fun w => w.active)).map Webhook.id ∧
    (insertedEvents st pid isSuccess).length
      = (st.webhooks.filter (fun w => w.active)).length ∧
    ∀ e ∈ insertedEvents st pid isSuccess,
      e.status = EventStatus.pending ∧
      e.event_type = (if isSuccess then "payment.completed" else "payment.failed") := by
  have hins : insertedEvents st pid isSuccess
      = ((st.webhooks.filter (fun w => w.active)).enum).map
          (fun iw =>
            ({ id := st.webhook_events.length + iw.1,
               webhook_id := iw.2.id,
               event_type := if isSuccess then "payment.completed" else "payment.failed",
               status := EventStatus.pending } : WebhookEvent)) := by
    simp only [insertedEvents, processPayment]
    exact List.drop_left _ _
  refine ⟨?_, ?_, ?_⟩
  · rw [hins, List.map_map]
    have hcomp : (WebhookEvent.webhook_id ∘ fun iw : Nat × Webhook =>
        ({ id := st.webhook_events.length + iw.1,
           webhook_id := iw.2.id,
           event_type := if isSuccess then "payment.completed" else "payment.failed",
           status := EventStatus.pending } : WebhookEvent))
        = Webhook.id ∘ Prod.snd := rfl
    rw [hcomp, ← List.map_map, List.enum_map_snd]
  · rw [hins]
    simp [List.enum_length]
  · intro e he
    rw [hins] at he
    obtain ⟨iw, _, rfl⟩ := List.mem_map.mp he
    exact ⟨rfl, rfl⟩

/-- C6: the claim states that the stored response is replayed iff a record
for the key exists and has not expired, expired records acting as absent.
The middleware's SELECT never mentions `expires_at`: a record whose
`expires_at` (1000) is far before `now` (90000000) is still replayed. -/
theorem C6_counterexample :
    ¬ (idempotencyLookup expiredRecordStore "k1" 90000000 = some "stored-response"
        ↔ ∃ r ∈ expiredRecordStore, r.key = "k1" ∧ (90000000 : Nat) < r.expires_at) := by
  decide

/-- C6 (amended): the idempotency middleware replays the stored response
iff a record with the key exists, whatever `expires_at` holds — the lookup
is independent of the current time, so expired records are replayed
rather than treated as absent. -/
theorem C6_amended_lookup_ignores_expiry (records : List IdempotencyRecord)
    (key : String) (now : Nat) :
    ((idempotencyLookup records key now).isSome ↔ ∃ r ∈ records, r.key = key) ∧
    idempotencyLookup records key now = idempotencyLookup records key 0 := by
  constructor
  · simp [idempotencyLookup, List.find?_isSome]
  · rfl

/-- Unfolding lemma: a missing webhook row marks the event failed. -/
theorem processWebhookEvent_not_found (ok : Bool) (err : String) (now : Nat)
    (e : WebhookEvent) :
    processWebhookEvent false ok err now e
      = { e with status := EventStatus.failed } := rfl

/-- Unfolding lemma: a successful delivery marks the event completed. -/
theorem processWebhookEvent_delivered (err : String) (now : Nat)
    (e : WebhookEvent) :
    processWebhookEvent true true err now e
      = { e with status := EventStatus.completed } := rfl

/-- Unfolding lemma: a failed delivery bumps the retry count and either
fails the event or schedules the backoff retry. -/
theorem processWebhookEvent_failed_delivery (err : String) (now : Nat)
    (e : WebhookEvent) :
    processWebhookEvent true false err now e
      = if e.max_retries ≤ e.retry_count + 1 then
          { e with status := EventStatus.failed, last_error := some err,
                   retry_count := e.retry_count + 1 }
        else
          { e with retry_count := e.retry_count + 1,
                   next_retry := some (now + 2 ^ (e.retry_count + 1) * 60),
                   last_error := some err } := rfl

/-- C7: the claim states that a webhook event turns `failed` if and only
if a failed delivery attempt brings `retry_count` to `max_retries`.  The
worker also marks an event `failed` outright when the subscription row is
missing: a fresh pending event (retry_count 0, max_retries 5) whose
webhook was deleted ends `failed` with `retry_count` still 0. -/
theorem C7_counterexample :
    (processWebhookEvent false true "" 0 freshEvent).status = EventStatus.failed ∧
    (processWebhookEvent false true "" 0 freshEvent).retry_count = 0 ∧
    freshEvent.max_retries = 5 := by
  decide

/-- C7 (amended): terminal rows are never due for the dispatcher (so no
recorded attempt touches them); an attempt on a row with
`retry_count < max_retries` keeps `retry_count ≤ max_retries`; and a
pending row turns `failed` iff the webhook row is missing, or the
delivery fails with the bumped `retry_count` reaching `max_retries`. -/
theorem C7_amended_event_lifecycle (found ok : Bool) (err : String)
    (now : Nat) (e : WebhookEvent) :
    ((e.status = EventStatus.completed ∨ e.status = EventStatus.failed) →
      isDue now e = false) ∧
    (e.retry_count < e.max_retries →
      (processWebhookEvent found ok err now e).retry_count ≤ e.max_retries) ∧
    (e.status = EventStatus.pending →
      ((processWebhookEvent found ok err now e).status = EventStatus.failed
        ↔ (found = false ∨ (ok = false ∧ e.max_retries ≤ e.retry_count + 1)))) := by
  refine ⟨?_, ?_, ?_⟩
  · rintro (h | h) <;> unfold isDue <;> rw [h] <;> rfl
  · intro hlt
    cases found with
    | false =>
      rw [processWebhookEvent_not_found]
      show e.retry_count ≤ e.max_retries
      omega
    | true =>
      cases ok with
      | false =>
        rw [processWebhookEvent_failed_delivery]
        split_ifs with h
        · show e.retry_count + 1 ≤ e.max_retries
          omega
        · show e.retry_count + 1 ≤ e.max_retries
          omega
      | true =>
        rw [processWebhookEvent_delivered]
        show e.retry_count ≤ e.max_retries
        omega
  · intro hpending
    cases found with
    | false =>
      rw [processWebhookEvent_not_found]
      show EventStatus.failed = EventStatus.failed ↔ _
      simp
    | true =>
      cases ok with
      | false =>
        rw [processWebhookEvent_failed_delivery]
        split_ifs with h
        · show EventStatus.failed = EventStatus.failed ↔ _
          simp [h]
        · show e.status = EventStatus.failed ↔ _
          rw [hpending]
          simp [h]
      | true =>
        rw [processWebhookEvent_delivered]
        show EventStatus.completed = EventStatus.failed ↔ _
        simp

/-- C8: a failed delivery attempt `n = retry_count + 1` with
`n < max_retries` persists `retry_count = n`,
`next_retry = now + 2^n * 60` seconds and `last_error`, the schedule being
120, 240, 480, 960, 1920 seconds (2, 4, 8, 16, 32 minutes) for
`n = 1..5`. -/
theorem C8_backoff_schedule (e : WebhookEvent) (err : String) (now : Nat)
    (h : e.retry_count + 1 < e.max_retries) :
    processWebhookEvent true false err now e =
      { e with retry_count := e.retry_count + 1,
               next_retry := some (now + 2 ^ (e.retry_count + 1) * 60),
               last_error := some err } ∧
    2 ^ 1 * 60 = 120 ∧ 2 ^ 2 * 60 = 240 ∧ 2 ^ 3 * 60 = 480 ∧
    2 ^ 4 * 60 = 960 ∧ 2 ^ 5 * 60 = 1920 := by
  refine ⟨?_, rfl, rfl, rfl, rfl, rfl⟩
  rw [processWebhookEvent_failed_delivery, if_neg (by omega)]

/-- C8 (witness): the schedule evaluated at attempt n = 2 on a concrete
row: retry_count 1 becomes 2 and next_retry lands 240 seconds out. -/
theorem C8_backoff_schedule_witness :
    processWebhookEvent true false "boom" 1000
        ⟨70, 7, "payment.completed", EventStatus.pending, 1, 5, none, none⟩
      = ⟨70, 7, "payment.completed", EventStatus.pending, 2, 5,
         some 1240, some "boom"⟩ :=
  (C8_backoff_schedule
      ⟨70, 7, "payment.completed", EventStatus.pending, 1, 5, none, none⟩
      "boom" 1000 (by decide)).1

/-- Length of hex encoding: two hex characters per byte. -/
theorem toHexBytes_length (l : List Nat) : (toHexBytes l).length = 2 * l.length := by
  induction l with
  | nil => rfl
  | cons b t ih =>
    simp only [toHexBytes, List.foldr_cons, List.length_cons] at ih ⊢
    omega

/-- Length of a big-endian byte rendering. -/
theorem beBytes_length (k n : Nat) : (beBytes k n).length = k := by
  simp [beBytes]

/-- A SHA-256 digest is 32 bytes long. -/
theorem sha256_length (msg : List Nat) : (sha256 msg).length = 32 := by
  unfold sha256
  simp [beBytes_length]

/-- A hex-encoded HMAC-SHA-256 signature is 64 bytes long. -/
theorem generateSignature_length (payload secret : List Nat) (t : Nat) :
    (generateSignature payload secret t).length = 64 := by
  unfold generateSignature hmacSha256
  rw [toHexBytes_length]
  simp [sha256_length]

/-- Reduction of the verifier inside the tolerance window: it is the
constant-time comparison against the expected signature. -/
theorem verify_in_tolerance (payload sig secret : List Nat) (t now : Nat)
    (h : ((now : Int) - (t : Int)).natAbs ≤ 300000) :
    verifyWebhookSignature payload sig secret t now
      = timingSafeEqual sig (generateSignature payload secret t) := by
  unfold verifyWebhookSignature
  rw [if_neg (Nat.not_lt.mpr h)]

/-- C9: the generated signature is the lowercase-hex HMAC-SHA-256 of
`timestamp + "." + payload` under the secret; verification of that
signature inside the 5-minute tolerance returns true; any timestamp
outside the tolerance returns false whatever the signature; and, inside
the tolerance, a 64-byte signature other than the expected one, a payload
whose expected signature differs, or a secret whose expected signature
differs, each make verification return false. -/
theorem C9_signature_roundtrip (payload secret : List Nat) (t now : Nat) :
    generateSignature payload secret t
      = toHexBytes (hmacSha256 secret (natToDecBytes t ++ [46] ++ payload)) ∧
    (((now : Int) - (t : Int)).natAbs ≤ 300000 →
      verifyWebhookSignature payload (generateSignature payload secret t) secret t now
        = Except.ok true) ∧
    (300000 < ((now : Int) - (t : Int)).natAbs →
      ∀ sig : List Nat,
        verifyWebhookSignature payload sig secret t now = Except.ok false) ∧
    (∀ sig : List Nat, sig.length = 64 →
      sig ≠ generateSignature payload secret t →
      ((now : Int) - (t : Int)).natAbs ≤ 300000 →
      verifyWebhookSignature payload sig secret t now = Except.ok false) ∧
    (∀ payload2 : List Nat,
      generateSignature payload2 secret t ≠ generateSignature payload secret t →
      ((now : Int) - (t : Int)).natAbs ≤ 300000 →
      verifyWebhookSignature payload2 (generateSignature payload secret t) secret t now
        = Except.ok false) ∧
    (∀ secret2 : List Nat,
      generateSignature payload secret2 t ≠ generateSignature payload secret t →
      ((now : Int) - (t : Int)).natAbs ≤ 300000 →
      verifyWebhookSignature payload (generateSignature payload secret t) secret2 t now
        = Except.ok false) := by
  refine ⟨rfl, ?_, ?_, ?_, ?_, ?_⟩
  · intro h
    rw [verify_in_tolerance _ _ _ _ _ h]
    unfold timingSafeEqual
    rw [if_pos rfl, beq_self_eq_true]
  · intro h sig
    unfold verifyWebhookSignature
    rw [if_pos h]
  · intro sig hlen hne h
    rw [verify_in_tolerance _ _ _ _ _ h]
    unfold timingSafeEqual
    rw [if_pos (by rw [hlen, generateSignature_length]),
        beq_eq_false_iff_ne.mpr hne]
  · intro payload2 hne h
    rw [verify_in_tolerance _ _ _ _ _ h]
    unfold timingSafeEqual
    rw [if_pos (by rw [generateSignature_length, generateSignature_length]),
        beq_eq_false_iff_ne.mpr (Ne.symm hne)]
  · intro secret2 hne h
    rw [verify_in_tolerance _ _ _ _ _ h]
    unfold timingSafeEqual
    rw [if_pos (by rw [generateSignature_length, generateSignature_length]),
        beq_eq_false_iff_ne.mpr (Ne.symm hne)]

/-- C9 (witness): the round trip, the stale-timestamp rejection, a
mutated 64-byte signature, a mutated payload and a mutated secret, all
evaluated on concrete bytes (payload `"a"`, secret `"b"`, timestamp 5). -/
theorem C9_signature_roundtrip_witness :
    verifyWebhookSignature [97] (generateSignature [97] [98] 5) [98] 5 100000
      = Except.ok true ∧
    verifyWebhookSignature [97] (generateSignature [97] [98] 5) [98] 5 400006
      = Except.ok false ∧
    verifyWebhookSignature [97] (toHexBytes (List.replicate 32 0)) [98] 5 100000
      = Except.ok false ∧
    verifyWebhookSignature [99] (generateSignature [97] [98] 5) [98] 5 100000
      = Except.ok false ∧
    verifyWebhookSignature [97] (generateSignature [97] [98] 5) [99] 5 100000
      = Except.ok false :=
  ⟨(C9_signature_roundtrip [97] [98] 5 100000).2.1 (by decide),
   (C9_signature_roundtrip [97] [98] 5 400006).2.2.1 (by decide)
     (generateSignature [97] [98] 5),
   (C9_signature_roundtrip [97] [98] 5 100000).2.2.2.1
     (toHexBytes (List.replicate 32 0)) (by decide) (by decide) (by decide),
   (C9_signature_roundtrip [97] [98] 5 100000).2.2.2.2.1 [99] (by decide) (by decide),
   (C9_signature_roundtrip [97] [98] 5 100000).2.2.2.2.2 [99] (by decide) (by decide)⟩

/-- C10: inside the tolerance window the verifier throws (the
`timingSafeEqual` buffer-length error) exactly when the candidate
signature's byte length differs from the 64 bytes of the expected hex
digest, instead of returning false; with a 64-byte candidate it returns a
boolean. -/
theorem C10_malformed_signature_length_error (payload sig secret : List Nat)
    (t now : Nat) (htol : ((now : Int) - (t : Int)).natAbs ≤ 300000) :
    ((∃ msg, verifyWebhookSignature payload sig secret t now = Except.error msg)
      ↔ sig.length ≠ 64) ∧
    (sig.length = 64 →
      ∃ b, verifyWebhookSignature payload sig secret t now = Except.ok b) := by
  have hv := verify_in_tolerance payload sig secret t now htol
  constructor
  · constructor
    · rintro ⟨msg, hmsg⟩
      rw [hv] at hmsg
      unfold timingSafeEqual at hmsg
      intro hlen
      rw [if_pos (by rw [hlen, generateSignature_length])] at hmsg
      exact Except.noConfusion hmsg
    · intro hlen
      refine ⟨"Input buffers must have the same byte length", ?_⟩
      rw [hv]
      unfold timingSafeEqual
      rw [if_neg]
      intro hc
      rw [generateSignature_length] at hc
      exact hlen hc
  · intro hlen
    refine ⟨sig == generateSignature payload secret t, ?_⟩
    rw [hv]
    unfold timingSafeEqual
    rw [if_pos (by rw [hlen, generateSignature_length])]

/-- C10 (witness): an empty candidate signature (length 0 ≠ 64) at an
in-tolerance timestamp makes the verifier throw. -/
theorem C10_malformed_signature_length_error_witness :
    ∃ msg, verifyWebhookSignature [97] [] [98] 5 100 = Except.error msg :=
  (C10_malformed_signature_length_error [97] [] [98] 5 100 (by decide)).1.mpr
    (by decide)

end PaymentGateway
